import Mathlib

/-!
Verification of the BCH Quantum Wallet Vault server core.

The development shallowly embeds the Node.js server (`server.js`, two
variants: a manual-encoding variant that mocks the address string, and a
library-encoding variant that delegates address handling to the external
`mainnet-js` collaborator).  Bytes are `Nat` values below 256, Node
`Buffer`s are `List Nat`, and the two digest primitives used by the code
(`crypto.createHash('sha256')` and `crypto.createHash('ripemd160')`) are
embedded as full executable implementations of SHA-256 and RIPEMD-160.
External ledger calls (`Wallet.watchOnly` / `getBalance` /
`Wallet.fromP2SH`) are modelled as injected fallible oracles.
-/

set_option maxRecDepth 100000
set_option linter.unusedVariables false

namespace BCHVault

/-- Rotate a 32-bit word right by `n` bits (the word is a `Nat` below `2 ^ 32`). -/
def rotr32 (n x : Nat) : Nat := ((x >>> n) ||| (x <<< (32 - n))) % 2 ^ 32

/-- Rotate a 32-bit word left by `n` bits. -/
def rol32 (n x : Nat) : Nat := ((x <<< n) ||| (x >>> (32 - n))) % 2 ^ 32

/-- A 32-bit word as 4 big-endian bytes. -/
def be32 (w : Nat) : List Nat :=
  [(w >>> 24) % 256, (w >>> 16) % 256, (w >>> 8) % 256, w % 256]

/-- A 64-bit length field as 8 big-endian bytes (SHA-256 padding). -/
def be64 (n : Nat) : List Nat :=
  [(n >>> 56) % 256, (n >>> 48) % 256, (n >>> 40) % 256, (n >>> 32) % 256,
   (n >>> 24) % 256, (n >>> 16) % 256, (n >>> 8) % 256, n % 256]

/-- A 32-bit word as 4 little-endian bytes (RIPEMD-160 serialization). -/
def le32 (w : Nat) : List Nat :=
  [w % 256, (w >>> 8) % 256, (w >>> 16) % 256, (w >>> 24) % 256]

/-- A 64-bit length field as 8 little-endian bytes (RIPEMD-160 padding). -/
def le64 (n : Nat) : List Nat :=
  [n % 256, (n >>> 8) % 256, (n >>> 16) % 256, (n >>> 24) % 256,
   (n >>> 32) % 256, (n >>> 40) % 256, (n >>> 48) % 256, (n >>> 56) % 256]

/-- Merkle–Damgård padding: append `0x80`, zero bytes up to 56 mod 64, then
the 8-byte bit length.  Shared shape of SHA-256 and RIPEMD-160 padding; the
length fields differ in endianness. -/
def padZeroCount (len : Nat) : Nat := (56 + 64 - (len + 1) % 64) % 64

/-- SHA-256 padding of a byte message. -/
def sha256Pad (msg : List Nat) : List Nat :=
  msg ++ 0x80 :: List.replicate (padZeroCount msg.length) 0 ++ be64 (msg.length * 8)

/-- RIPEMD-160 padding of a byte message. -/
def rmdPad (msg : List Nat) : List Nat :=
  msg ++ 0x80 :: List.replicate (padZeroCount msg.length) 0 ++ le64 (msg.length * 8)

/-- Group bytes into 32-bit words, big-endian. -/
def bytesToWordsBE : List Nat → List Nat
  | b0 :: b1 :: b2 :: b3 :: rest =>
      (((b0 * 256 + b1) * 256 + b2) * 256 + b3) :: bytesToWordsBE rest
  | _ => []

/-- Group bytes into 32-bit words, little-endian. -/
def bytesToWordsLE : List Nat → List Nat
  | b0 :: b1 :: b2 :: b3 :: rest =>
      (((b3 * 256 + b2) * 256 + b1) * 256 + b0) :: bytesToWordsLE rest
  | _ => []

/-- Split a word list into 16-word blocks; `fuel` bounds the recursion and is
instantiated with the list length. -/
def chunks16 : Nat → List Nat → List (List Nat)
  | 0, _ => []
  | _, [] => []
  | fuel + 1, ws => ws.take 16 :: chunks16 fuel (ws.drop 16)

/-- The eight 32-bit working registers of SHA-256. -/
structure Hash8 where
  a : Nat
  b : Nat
  c : Nat
  d : Nat
  e : Nat
  f : Nat
  g : Nat
  h : Nat
deriving DecidableEq

/-- SHA-256 initial hash value (the standard eight words, written in decimal). -/
def sha256Init : Hash8 :=
  ⟨1779033703, 3144134277, 1013904242, 2773480762,
   1359893119, 2600822924, 528734635, 1541459225⟩

/-- The 64 SHA-256 round constants (the standard table, written in decimal). -/
def sha256K : List Nat :=
  [1116352408, 1899447441, 3049323471, 3921009573, 961987163,
   1508970993, 2453635748, 2870763221, 3624381080, 310598401,
   607225278, 1426881987, 1925078388, 2162078206, 2614888103,
   3248222580, 3835390401, 4022224774, 264347078, 604807628,
   770255983, 1249150122, 1555081692, 1996064986, 2554220882,
   2821834349, 2952996808, 3210313671, 3336571891, 3584528711,
   113926993, 338241895, 666307205, 773529912, 1294757372,
   1396182291, 1695183700, 1986661051, 2177026350, 2456956037,
   2730485921, 2820302411, 3259730800, 3345764771, 3516065817,
   3600352804, 4094571909, 275423344, 430227734, 506948616,
   659060556, 883997877, 958139571, 1322822218, 1537002063,
   1747873779, 1955562222, 2024104815, 2227730452, 2361852424,
   2428436474, 2756734187, 3204031479, 3329325298]

/-- Extend a 16-word block to the 64-word SHA-256 message schedule; the first
argument counts the remaining 48 extension steps. -/
def sha256Extend : Nat → List Nat → List Nat
  | 0, ws => ws
  | n + 1, ws =>
      let i := ws.length
      let w15 := ws.getD (i - 15) 0
      let w2 := ws.getD (i - 2) 0
      let s0 := (rotr32 7 w15) ^^^ (rotr32 18 w15) ^^^ (w15 >>> 3)
      let s1 := (rotr32 17 w2) ^^^ (rotr32 19 w2) ^^^ (w2 >>> 10)
      sha256Extend n (ws ++ [(ws.getD (i - 16) 0 + s0 + ws.getD (i - 7) 0 + s1) % 2 ^ 32])

/-- One SHA-256 compression round for constant/schedule pair `kw`. -/
def sha256Round (s : Hash8) (kw : Nat × Nat) : Hash8 :=
  let bigS1 := (rotr32 6 s.e) ^^^ (rotr32 11 s.e) ^^^ (rotr32 25 s.e)
  let ch := (s.e &&& s.f) ^^^ ((0xffffffff ^^^ s.e) &&& s.g)
  let t1 := (s.h + bigS1 + ch + kw.1 + kw.2) % 2 ^ 32
  let bigS0 := (rotr32 2 s.a) ^^^ (rotr32 13 s.a) ^^^ (rotr32 22 s.a)
  let maj := (s.a &&& s.b) ^^^ (s.a &&& s.c) ^^^ (s.b &&& s.c)
  let t2 := (bigS0 + maj) % 2 ^ 32
  ⟨(t1 + t2) % 2 ^ 32, s.a, s.b, s.c, (s.d + t1) % 2 ^ 32, s.e, s.f, s.g⟩

/-- SHA-256 compression of one 16-word block into the chaining state. -/
def sha256Block (st : Hash8) (block : List Nat) : Hash8 :=
  let w := sha256Extend 48 block
  let r := (sha256K.zip w).foldl sha256Round st
  ⟨(st.a + r.a) % 2 ^ 32, (st.b + r.b) % 2 ^ 32, (st.c + r.c) % 2 ^ 32,
   (st.d + r.d) % 2 ^ 32, (st.e + r.e) % 2 ^ 32, (st.f + r.f) % 2 ^ 32,
   (st.g + r.g) % 2 ^ 32, (st.h + r.h) % 2 ^ 32⟩

/-- Serialize the final SHA-256 state as 32 big-endian bytes. -/
def sha256Digest (st : Hash8) : List Nat :=
  be32 st.a ++ be32 st.b ++ be32 st.c ++ be32 st.d ++
  be32 st.e ++ be32 st.f ++ be32 st.g ++ be32 st.h

/-- SHA-256 of a byte message: the embedding of
`crypto.createHash('sha256').update(msg).digest()`. -/
def sha256 (msg : List Nat) : List Nat :=
  let ws := bytesToWordsBE (sha256Pad msg)
  sha256Digest ((chunks16 ws.length ws).foldl sha256Block sha256Init)

/-- The five 32-bit working registers of RIPEMD-160. -/
structure Hash5 where
  a : Nat
  b : Nat
  c : Nat
  d : Nat
  e : Nat
deriving DecidableEq

/-- RIPEMD-160 initial chaining value. -/
def rmdInit : Hash5 := ⟨0x67452301, 0xefcdab89, 0x98badcfe, 0x10325476, 0xc3d2e1f0⟩

/-- The RIPEMD-160 selection function for round `j` (five 16-round groups). -/
def rmdF (j x y z : Nat) : Nat :=
  if j < 16 then x ^^^ y ^^^ z
  else if j < 32 then (x &&& y) ||| ((0xffffffff ^^^ x) &&& z)
  else if j < 48 then (x ||| (0xffffffff ^^^ y)) ^^^ z
  else if j < 64 then (x &&& z) ||| (y &&& (0xffffffff ^^^ z))
  else x ^^^ (y ||| (0xffffffff ^^^ z))

/-- RIPEMD-160 left-line round constants. -/
def rmdKL (j : Nat) : Nat :=
  if j < 16 then 0 else if j < 32 then 0x5a827999 else if j < 48 then 0x6ed9eba1
  else if j < 64 then 0x8f1bbcdc else 0xa953fd4e

/-- RIPEMD-160 right-line round constants. -/
def rmdKR (j : Nat) : Nat :=
  if j < 16 then 0x50a28be6 else if j < 32 then 0x5c4dd124 else if j < 48 then 0x6d703ef3
  else if j < 64 then 0x7a6d76e9 else 0

/-- RIPEMD-160 left-line message word order. -/
def rmdRL : List Nat :=
  [0, 1, 2, 3, 4, 5, 6, 7, 8, 9, 10, 11, 12, 13, 14, 15,
   7, 4, 13, 1, 10, 6, 15, 3, 12, 0, 9, 5, 2, 14, 11, 8,
   3, 10, 14, 4, 9, 15, 8, 1, 2, 7, 0, 6, 13, 11, 5, 12,
   1, 9, 11, 10, 0, 8, 12, 4, 13, 3, 7, 15, 14, 5, 6, 2,
   4, 0, 5, 9, 7, 12, 2, 10, 14, 1, 3, 8, 11, 6, 15, 13]

/-- RIPEMD-160 right-line message word order. -/
def rmdRR : List Nat :=
  [5, 14, 7, 0, 9, 2, 11, 4, 13, 6, 15, 8, 1, 10, 3, 12,
   6, 11, 3, 7, 0, 13, 5, 10, 14, 15, 8, 12, 4, 9, 1, 2,
   15, 5, 1, 3, 7, 14, 6, 9, 11, 8, 12, 2, 10, 0, 4, 13,
   8, 6, 4, 1, 3, 11, 15, 0, 5, 12, 2, 13, 9, 7, 10, 14,
   12, 15, 10, 4, 1, 5, 8, 7, 6, 2, 13, 14, 0, 3, 9, 11]

/-- RIPEMD-160 left-line rotation amounts. -/
def rmdSL : List Nat :=
  [11, 14, 15, 12, 5, 8, 7, 9, 11, 13, 14, 15, 6, 7, 9, 8,
   7, 6, 8, 13, 11, 9, 7, 15, 7, 12, 15, 9, 11, 7, 13, 12,
   11, 13, 6, 7, 14, 9, 13, 15, 14, 8, 13, 6, 5, 12, 7, 5,
   11, 12, 14, 15, 14, 15, 9, 8, 9, 14, 5, 6, 8, 6, 5, 12,
   9, 15, 5, 11, 6, 8, 13, 12, 5, 12, 13, 14, 11, 8, 5, 6]

/-- RIPEMD-160 right-line rotation amounts. -/
def rmdSR : List Nat :=
  [8, 9, 9, 11, 13, 15, 15, 5, 7, 7, 8, 11, 14, 14, 12, 6,
   9, 13, 15, 7, 12, 8, 9, 11, 7, 7, 12, 7, 6, 15, 13, 11,
   9, 7, 15, 11, 8, 6, 6, 14, 12, 13, 5, 14, 13, 13, 7, 5,
   15, 5, 8, 11, 14, 14, 6, 14, 6, 9, 12, 9, 12, 5, 15, 8,
   8, 5, 12, 9, 12, 5, 14, 6, 8, 13, 6, 5, 15, 13, 11, 11]

/-- One RIPEMD-160 left-line round over message block `X`. -/
def rmdStepL (X : List Nat) (st : Hash5) (j : Nat) : Hash5 :=
  let t := (rol32 (rmdSL.getD j 0)
      ((st.a + rmdF j st.b st.c st.d + X.getD (rmdRL.getD j 0) 0 + rmdKL j) % 2 ^ 32)
      + st.e) % 2 ^ 32
  ⟨st.e, t, st.b, rol32 10 st.c, st.d⟩

/-- One RIPEMD-160 right-line round over message block `X` (the right line
uses the selection functions in reverse order). -/
def rmdStepR (X : List Nat) (st : Hash5) (j : Nat) : Hash5 :=
  let t := (rol32 (rmdSR.getD j 0)
      ((st.a + rmdF (79 - j) st.b st.c st.d + X.getD (rmdRR.getD j 0) 0 + rmdKR j) % 2 ^ 32)
      + st.e) % 2 ^ 32
  ⟨st.e, t, st.b, rol32 10 st.c, st.d⟩

/-- RIPEMD-160 compression of one 16-word block into the chaining state. -/
def rmdBlock (st : Hash5) (X : List Nat) : Hash5 :=
  let l := (List.range 80).foldl (rmdStepL X) st
  let r := (List.range 80).foldl (rmdStepR X) st
  ⟨(st.b + l.c + r.d) % 2 ^ 32, (st.c + l.d + r.e) % 2 ^ 32,
   (st.d + l.e + r.a) % 2 ^ 32, (st.e + l.a + r.b) % 2 ^ 32,
   (st.a + l.b + r.c) % 2 ^ 32⟩

/-- Serialize the final RIPEMD-160 state as 20 little-endian bytes. -/
def rmdDigest (st : Hash5) : List Nat :=
  le32 st.a ++ le32 st.b ++ le32 st.c ++ le32 st.d ++ le32 st.e

/-- RIPEMD-160 of a byte message: the embedding of
`crypto.createHash('ripemd160').update(msg).digest()`. -/
def ripemd160 (msg : List Nat) : List Nat :=
  let ws := bytesToWordsLE (rmdPad msg)
  rmdDigest ((chunks16 ws.length ws).foldl rmdBlock rmdInit)

/-- The value of one hex digit character, lowercase or uppercase; `none` on a
non-hex character.  Mirrors Node's per-character hex decoding. -/
def hexDigit? (c : Char) : Option Nat :=
  if 48 ≤ c.toNat && c.toNat ≤ 57 then some (c.toNat - 48)
  else if 97 ≤ c.toNat && c.toNat ≤ 102 then some (c.toNat - 87)
  else if 65 ≤ c.toNat && c.toNat ≤ 70 then some (c.toNat - 55)
  else none

/-- Decode hex digit pairs into bytes; like `Buffer.from(s, 'hex')`, decoding
stops at the first invalid pair and a trailing lone digit is dropped. -/
def hexPairsToBytes : List Char → List Nat
  | c0 :: c1 :: rest =>
      match hexDigit? c0, hexDigit? c1 with
      | some h1, some h2 => (h1 * 16 + h2) :: hexPairsToBytes rest
      | _, _ => []
  | _ => []

/-- The embedding of `Buffer.from(s, 'hex')`. -/
def hexToBytes (s : String) : List Nat := hexPairsToBytes s.data

/-- The lowercase hex digit character for a value below 16. -/
def hexChar (n : Nat) : Char := "0123456789abcdef".data.getD n '0'

/-- One byte as two lowercase hex characters. -/
def byteToHex (b : Nat) : List Char := [hexChar (b / 16), hexChar (b % 16)]

/-- The embedding of `buf.toString('hex')`. -/
def bytesToHex (bs : List Nat) : String := ⟨bs.flatMap byteToHex⟩

/-- True when every character of `s` is a hex digit and the length is even,
i.e. `s` parses as hex without truncation. -/
def isHexString (s : String) : Bool :=
  s.data.all (fun c => (hexDigit? c).isSome) && s.length % 2 == 0

/-- True when the first character list starts the second one. -/
def listStarts : List Char → List Char → Bool
  | [], _ => true
  | _ :: _, [] => false
  | p :: ps, c :: cs => p == c && listStarts ps cs

/-- True when `pat` occurs as a contiguous run inside the second list. -/
def listHasInfix (pat : List Char) : List Char → Bool
  | [] => pat.isEmpty
  | c :: cs => listStarts pat (c :: cs) || listHasInfix pat cs

/-- The embedding of JavaScript `s.includes(pat)`: substring containment. -/
def jsIncludes (s pat : String) : Bool := listHasInfix pat.data s.data

/-- The locking-script bytes the manual-encoding `createQuantumVault` builds
from a 32-byte secret (server.js lines 91–95):
`Buffer.concat([Buffer.from('a820','hex'), sha256(secret), Buffer.from('87','hex')])`. -/
def createScriptBuffer (secret : List Nat) : List Nat :=
  hexToBytes "a820" ++ sha256 secret ++ hexToBytes "87"

/-- The locking-script bytes the library-variant sweep handler rebuilds from
the posted hex secret (server.js lines 263–269): parse the hex secret, hash
it, and concatenate the same three buffers. -/
def sweepScriptBuffer (secretHex : String) : List Nat :=
  let secretBuf := hexToBytes secretHex
  let secretHash := sha256 secretBuf
  hexToBytes "a820" ++ secretHash ++ hexToBytes "87"

/-- RIPEMD-160 after SHA-256: the script-hash computation shared by
`createQuantumVault` (lines 110–111) and `deriveP2SHAddress` (lines 39–42). -/
def scriptHashOf (script : List Nat) : List Nat := ripemd160 (sha256 script)

/-- The JSON object returned by the manual-encoding `createQuantumVault`:
all four fields are hex or address strings. -/
structure CreateVaultResult where
  secret : String
  secretHash : String
  address : String
  lockingScript : String
deriving DecidableEq

/-- The manual-encoding `createQuantumVault` (server.js lines 86–132) with the
entropy injected: the caller passes the 32 random bytes that
`crypto.randomBytes(32)` drew, and the rest of the pipeline is embedded as
written — commitment, locking script, script hash, and the mocked address
string `"bitcoincash:type_p2sh_" + h160.toString('hex')`. -/
def createQuantumVault (secret : List Nat) : CreateVaultResult :=
  let secretHash := sha256 secret
  let scriptBuffer := hexToBytes "a820" ++ secretHash ++ hexToBytes "87"
  let s256 := sha256 scriptBuffer
  let h160 := ripemd160 s256
  let address := "bitcoincash:type_p2sh_" ++ bytesToHex h160
  { secret := bytesToHex secret
    secretHash := bytesToHex secretHash
    address := address
    lockingScript := bytesToHex scriptBuffer }

/-- The JSON object sent by `/api/balance`. -/
structure BalanceResponse where
  success : Bool
  balance : Option Nat
  note : Option String
  error : Option String
deriving DecidableEq

/-- The manual-encoding `/api/balance` handler (server.js lines 146–161).
The external ledger collaborator (`Wallet.watchOnly` followed by
`getBalance('sat')`) is injected as the fallible oracle `lookupBalance`; a
thrown error is its `Except.error` message.  The second component of the
result counts how many times the handler invoked the oracle. -/
def balanceHandler (lookupBalance : String → Except String Nat) (address : String) :
    BalanceResponse × Nat :=
  if jsIncludes address "type_p2sh" then
    ({ success := true, balance := some 0, note := some "Simulated Address", error := none }, 0)
  else
    match lookupBalance address with
    | Except.error e => ({ success := false, balance := none, note := none, error := some e }, 1)
    | Except.ok b => ({ success := true, balance := some b, note := none, error := none }, 1)

/-- The JSON object sent by `/api/sweep`. -/
structure SweepResponse where
  success : Bool
  message : Option String
  txid : Option String
  debug : Option String
  error : Option String
deriving DecidableEq

/-- The manual-encoding `/api/sweep` handler (server.js lines 163–181) with
the 8 random txid bytes injected.  It parses the posted secret, recomputes
its SHA-256, and then answers success unconditionally — the recomputed hash
is never compared against anything. -/
def sweepHandlerManual (rand8 : List Nat) (secret toAddress : String) : SweepResponse :=
  let secretBuf := hexToBytes secret
  let _secretHash := sha256 secretBuf
  { success := true
    message := some "Vault Validated! (Broadcasting mocked)"
    txid := some ("tx_simulated_" ++ bytesToHex rand8)
    debug := some "Secret hash matches."
    error := none }

/-- The library-encoding `/api/sweep` handler (server.js lines 260–288).
`Wallet.fromP2SH(script hex)` followed by `getBalance('sat')` is injected as
the oracle `ledger`, keyed by the locking-script hex; a thrown error is its
`Except.error` message. -/
def sweepHandlerLib (ledger : String → Except String Nat) (secret toAddress : String) :
    SweepResponse :=
  let scriptBuffer := sweepScriptBuffer secret
  match ledger (bytesToHex scriptBuffer) with
  | Except.error e =>
      { success := false, message := none, txid := none, debug := none, error := some e }
  | Except.ok balance =>
      if balance < 1000 then
        { success := false, message := none, txid := none, debug := none,
          error := some "Insufficient funds in vault." }
      else
        { success := true, message := some "Transaction Constructed (Simulation)",
          txid := some "requires_full_node_implementation",
          debug := some "Secret verified against hash.", error := none }

/-- Modelled from the spec: the low 5 bits of a prefix character (§4.3 step 2). -/
def charLow5 (c : Char) : Nat := c.toNat &&& 31

/-- Modelled from the spec: a byte as 8 bits, most significant first (§4.3 step 1). -/
def byteBits (b : Nat) : List Nat :=
  [(b >>> 7) &&& 1, (b >>> 6) &&& 1, (b >>> 5) &&& 1, (b >>> 4) &&& 1,
   (b >>> 3) &&& 1, (b >>> 2) &&& 1, (b >>> 1) &&& 1, b &&& 1]

/-- Modelled from the spec: regroup a bit stream into 5-bit groups, zero-padding
the final group (§4.3 step 1); `fuel` bounds the recursion. -/
def bits5 : Nat → List Nat → List Nat
  | 0, _ => []
  | _, [] => []
  | fuel + 1, bits =>
      let g := bits.take 5 ++ List.replicate (5 - (bits.take 5).length) 0
      g.foldl (fun acc b => acc * 2 + b) 0 :: bits5 fuel (bits.drop 5)

/-- Modelled from the spec: re-pack bytes from 8-bit groups to 5-bit groups,
most-significant-bit first (§4.3 step 1). -/
def toGroups5 (bs : List Nat) : List Nat :=
  let bits := bs.flatMap byteBits
  bits5 bits.length bits

/-- Modelled from the spec: the five 40-bit BCH generator constants (§4.3 step 3). -/
def cashGen : List Nat := [0x98f2bc8e61, 0x79b76d99e2, 0xf33e5fb3c4, 0xae2eabe2a8, 0x1e4f43e470]

/-- Modelled from the spec: one BCH checksum step — shift the 40-bit
accumulator left by 5, XOR in the symbol, and XOR in one generator constant
per set retired top bit (§4.3 step 3). -/
def cashPolymodStep (c d : Nat) : Nat :=
  let c0 := c >>> 35
  let c1 := ((c &&& 0x07ffffffff) <<< 5) ^^^ d
  (List.range 5).foldl (fun acc i => if (c0 >>> i) &&& 1 = 1 then acc ^^^ cashGen.getD i 0 else acc) c1

/-- Modelled from the spec: the 40-bit BCH polynomial remainder, seeded at 1
and finally XORed with 1 (§4.3 step 3). -/
def cashPolymod (vals : List Nat) : Nat := (vals.foldl cashPolymodStep 1) ^^^ 1

/-- Modelled from the spec: the 32-character base-32 alphabet (§4.3 step 4). -/
def cashAlphabet : List Char := "qpzry9x8gf2tvdw0s3jn54khce6mua7l".data

/-- Modelled from the spec: the checksummed base-32 ("CashAddr-style") address
encoder of §4.3, which the repository's creation operation is claimed to
apply to the 20-byte script hash but whose implementation is absent from the
source.  Steps: 5-bit regrouping of typeByte‖payload, 8-symbol BCH checksum
over prefix-low-5-bits ‖ 0 ‖ payload groups ‖ eight zeros, alphabet mapping,
and the `prefix:` prefix. -/
def cashAddrEncodeSpec (hrp : String) (typeByte : Nat) (payload : List Nat) : String :=
  let groups := toGroups5 (typeByte :: payload)
  let pm := cashPolymod ((hrp.data.map charLow5) ++ [0] ++ groups ++ List.replicate 8 0)
  let cks := (List.range 8).map (fun i => (pm >>> (5 * (7 - i))) &&& 31)
  hrp ++ ":" ++ String.mk ((groups ++ cks).map (fun g => cashAlphabet.getD g 'q'))

instance instDecEqExcept {ε α : Type} [DecidableEq ε] [DecidableEq α] :
    DecidableEq (Except ε α) := fun a b =>
  match a, b with
  | Except.error x, Except.error y =>
      if h : x = y then Decidable.isTrue (h ▸ rfl)
      else Decidable.isFalse (fun c => h (by cases c; rfl))
  | Except.error _, Except.ok _ => Decidable.isFalse (fun c => nomatch c)
  | Except.ok _, Except.error _ => Decidable.isFalse (fun c => nomatch c)
  | Except.ok x, Except.ok y =>
      if h : x = y then Decidable.isTrue (h ▸ rfl)
      else Decidable.isFalse (fun c => h (by cases c; rfl))

/-- Modelled from the spec: the error kinds of the Level-2 Merkle vault (§7). -/
inductive VaultError where
  | InvalidLeafIndex
  | LeafAlreadyUsed
  | VaultExhausted
deriving DecidableEq

/-- Modelled from the spec: one Merkle leaf — a one-time secret and its
`used` flag (§3 MerkleVault). -/
structure MerkleLeaf where
  secret : List Nat
  used : Bool
deriving DecidableEq, Inhabited

/-- Modelled from the spec: a 4-leaf Merkle signature vault (§3, §4.5). -/
structure MerkleVault where
  leaves : List MerkleLeaf
deriving DecidableEq

/-- A vault is well formed when it has exactly 4 leaves (§3 invariant). -/
def MerkleVault.wellFormed (v : MerkleVault) : Prop := v.leaves.length = 4

instance (v : MerkleVault) : Decidable v.wellFormed := by
  unfold MerkleVault.wellFormed; infer_instance

/-- Modelled from the spec: leaf commitment `Commitment_i = sha256(Secret_i)` (§4.5). -/
def MerkleVault.commitment (v : MerkleVault) (i : Nat) : List Nat :=
  sha256 (v.leaves.getD i default).secret

/-- Modelled from the spec: internal node `Node(1,0) = sha256(C_0 ‖ C_1)` (§4.5). -/
def MerkleVault.node10 (v : MerkleVault) : List Nat :=
  sha256 (v.commitment 0 ++ v.commitment 1)

/-- Modelled from the spec: internal node `Node(1,1) = sha256(C_2 ‖ C_3)` (§4.5). -/
def MerkleVault.node11 (v : MerkleVault) : List Nat :=
  sha256 (v.commitment 2 ++ v.commitment 3)

/-- Modelled from the spec: the root `sha256(Node(1,0) ‖ Node(1,1))` (§4.5). -/
def MerkleVault.root (v : MerkleVault) : List Nat :=
  sha256 (v.node10 ++ v.node11)

/-- A sibling digest tagged with its position relative to the folding path. -/
inductive PathDir where
  | left
  | right
deriving DecidableEq

/-- One tagged sibling digest of a Merkle proof. -/
structure PathElem where
  dir : PathDir
  digest : List Nat
deriving DecidableEq

/-- Modelled from the spec: a Level-2 proof object
`{leafIndex, secret, siblingPath}` (§3 Proof). -/
structure MerkleProof where
  leafIndex : Nat
  secret : List Nat
  siblingPath : List PathElem
deriving DecidableEq

/-- Modelled from the spec: the sibling path for leaf `i` — the other leaf of
its pair tagged by position, then the sibling internal node at level 1 (§4.5). -/
def MerkleVault.siblingPath (v : MerkleVault) (i : Nat) : List PathElem :=
  let pairSib : PathElem :=
    if i % 2 = 0 then ⟨PathDir.right, v.commitment (i + 1)⟩
    else ⟨PathDir.left, v.commitment (i - 1)⟩
  let nodeSib : PathElem :=
    if i < 2 then ⟨PathDir.right, v.node11⟩ else ⟨PathDir.left, v.node10⟩
  [pairSib, nodeSib]

/-- Mark leaf `i` as used, leaving the other leaves unchanged. -/
def MerkleVault.markUsed (v : MerkleVault) (i : Nat) : MerkleVault :=
  ⟨v.leaves.set i { v.leaves.getD i default with used := true }⟩

/-- Modelled from the spec: `generateProof(leafIndex)` (§4.5) — fails with
`InvalidLeafIndex` outside [0,3], fails with `LeafAlreadyUsed` when the
leaf's flag is true, and otherwise returns the proof together with the vault
whose leaf is marked used (check-and-set in one indivisible step). -/
def MerkleVault.generateProof (v : MerkleVault) (i : Nat) :
    Except VaultError (MerkleProof × MerkleVault) :=
  if 4 ≤ i then Except.error VaultError.InvalidLeafIndex
  else if (v.leaves.getD i default).used then Except.error VaultError.LeafAlreadyUsed
  else Except.ok (⟨i, (v.leaves.getD i default).secret, v.siblingPath i⟩, v.markUsed i)

/-- A 32-byte all-zero secret, used as a concrete evaluation point. -/
def zeroSecret : List Nat := List.replicate 32 0

/-- A concrete well-formed 4-leaf vault with distinct 32-byte secrets, all unused. -/
def cvault : MerkleVault :=
  ⟨[⟨List.replicate 32 1, false⟩, ⟨List.replicate 32 2, false⟩,
    ⟨List.replicate 32 3, false⟩, ⟨List.replicate 32 4, false⟩]⟩

/-- A concrete ledger oracle that always fails. -/
def errLedger : String → Except String Nat := fun _ => Except.error "boom"

/-- A concrete ledger oracle that always reports 3 satoshis. -/
def okLedger : String → Except String Nat := fun _ => Except.ok 3

/-- A concrete ledger oracle that always reports 500 satoshis. -/
def lowLedger : String → Except String Nat := fun _ => Except.ok 500

/-- A concrete ledger oracle that always reports 5000 satoshis. -/
def highLedger : String → Except String Nat := fun _ => Except.ok 5000

end BCHVault

namespace BCHVault

/-- SHA-256 test vector: the empty message. -/
theorem sha256_vector_empty :
    sha256 [] =
      [0xe3, 0xb0, 0xc4, 0x42, 0x98, 0xfc, 0x1c, 0x14, 0x9a, 0xfb, 0xf4, 0xc8,
       0x99, 0x6f, 0xb9, 0x24, 0x27, 0xae, 0x41, 0xe4, 0x64, 0x9b, 0x93, 0x4c,
       0xa4, 0x95, 0x99, 0x1b, 0x78, 0x52, 0xb8, 0x55] := by decide

/-- SHA-256 test vector: the ASCII message "abc". -/
theorem sha256_vector_abc :
    sha256 [0x61, 0x62, 0x63] =
      [0xba, 0x78, 0x16, 0xbf, 0x8f, 0x01, 0xcf, 0xea, 0x41, 0x41, 0x40, 0xde,
       0x5d, 0xae, 0x22, 0x23, 0xb0, 0x03, 0x61, 0xa3, 0x96, 0x17, 0x7a, 0x9c,
       0xb4, 0x10, 0xff, 0x61, 0xf2, 0x00, 0x15, 0xad] := by decide

/-- RIPEMD-160 test vector: the empty message. -/
theorem ripemd160_vector_empty :
    ripemd160 [] =
      [0x9c, 0x11, 0x85, 0xa5, 0xc5, 0xe9, 0xfc, 0x54, 0x61, 0x28,
       0x08, 0x97, 0x7e, 0xe8, 0xf5, 0x48, 0xb2, 0x25, 0x8d, 0x31] := by decide

/-- RIPEMD-160 test vector: the ASCII message "abc". -/
theorem ripemd160_vector_abc :
    ripemd160 [0x61, 0x62, 0x63] =
      [0x8e, 0xb2, 0x08, 0xf7, 0xe0, 0x5d, 0x98, 0x7a, 0x9b, 0x04,
       0x4a, 0x8e, 0x98, 0xc6, 0xb0, 0x87, 0xf1, 0x5a, 0x0b, 0xfc] := by decide

/-- A RIPEMD-160 digest is always 20 bytes: the serialization emits five
4-byte words regardless of the chaining state. -/
theorem ripemd160_length (msg : List Nat) : (ripemd160 msg).length = 20 := rfl

/-- A SHA-256 digest is always 32 bytes. -/
theorem sha256_length (msg : List Nat) : (sha256 msg).length = 32 := rfl

/-- Encoding then decoding one hex digit is the identity below 16. -/
theorem hexDigit_hexChar : ∀ n : Nat, n < 16 → hexDigit? (hexChar n) = some n := by decide

/-- Hex round trip on the underlying character list. -/
theorem hexPairs_roundtrip (bs : List Nat) (hb : ∀ b ∈ bs, b < 256) :
    hexPairsToBytes (bs.flatMap byteToHex) = bs := by
  induction bs with
  | nil => rfl
  | cons b t ih =>
      have hblt : b < 256 := hb b (by simp)
      have h1 : b / 16 < 16 := by omega
      have h2 : b % 16 < 16 := by omega
      have hstep : (b :: t).flatMap byteToHex
          = hexChar (b / 16) :: hexChar (b % 16) :: t.flatMap byteToHex := by
        simp [byteToHex]
      have hsimp : hexPairsToBytes (hexChar (b / 16) :: hexChar (b % 16) :: t.flatMap byteToHex)
          = (b / 16 * 16 + b % 16) :: hexPairsToBytes (t.flatMap byteToHex) := by
        simp [hexPairsToBytes, hexDigit_hexChar _ h1, hexDigit_hexChar _ h2]
      rw [hstep, hsimp, ih (fun x hx => hb x (by simp [hx]))]
      congr 1
      omega

/-- Hex round trip: `Buffer.from(buf.toString('hex'), 'hex')` recovers the
bytes, for genuine byte lists. -/
theorem hex_roundtrip (bs : List Nat) (hb : ∀ b ∈ bs, b < 256) :
    hexToBytes (bytesToHex bs) = bs :=
  hexPairs_roundtrip bs hb

/-- The two constant buffers of the locking script decode as expected. -/
theorem hex_a820_87 : hexToBytes "a820" = [0xa8, 0x20] ∧ hexToBytes "87" = [0x87] := by decide

/-- Claim C1 (as amended): for every 32-byte secret, `createQuantumVault`
builds the locking script as the byte sequence `0xa8` (OP_SHA256), length
byte `0x20`, the 32-byte commitment `sha256(secret)`, and the closing opcode
`0x87` (OP_EQUAL); the returned `lockingScript` field is its hex rendering.
The spec's first opcode byte `0xa2` does not match the code, whose comment
and README both say `OP_SHA256 <Hash> OP_EQUAL`. -/
theorem c1_locking_script_layout (s : List Nat) (hlen : s.length = 32) :
    createScriptBuffer s = 0xa8 :: 0x20 :: (sha256 s ++ [0x87]) ∧
    (createQuantumVault s).lockingScript = bytesToHex (createScriptBuffer s) := by
  refine ⟨?_, rfl⟩
  show hexToBytes "a820" ++ sha256 s ++ hexToBytes "87" = _
  rw [hex_a820_87.1, hex_a820_87.2]
  simp

/-- Claim C1, counterexample to the claim as stated: at the all-zero 32-byte
secret the built locking script does not begin with opcode byte `0xa2`. -/
theorem c1_counterexample :
    ¬ (createScriptBuffer zeroSecret = 0xa2 :: 0x20 :: (sha256 zeroSecret ++ [0x87])) := by
  decide

/-- Claim C1, witness: the amended layout at the all-zero 32-byte secret. -/
theorem c1_witness :
    createScriptBuffer zeroSecret = 0xa8 :: 0x20 :: (sha256 zeroSecret ++ [0x87]) ∧
    (createQuantumVault zeroSecret).lockingScript = bytesToHex (createScriptBuffer zeroSecret) :=
  c1_locking_script_layout zeroSecret (by decide)

/-- Claim C2 (code bug, evaluated at the failing input): at the all-zero
32-byte secret the creation operation returns the single mocked address
string `"bitcoincash:type_p2sh_" ++ script-hash hex` — not the checksummed
base-32 encoding of the script hash that the spec (and the repository's own
README and frontend, which expect three address fields) prescribe.  The
third conjunct pins the spec encoder's output on that same script hash. -/
theorem c2_mocked_address_not_cashaddr :
    (createQuantumVault zeroSecret).address
        = "bitcoincash:type_p2sh_5ac510d7f094e2fe7ff0c7cf6b082b0f6ee7552f" ∧
    (createQuantumVault zeroSecret).address
        ≠ cashAddrEncodeSpec "bitcoincash" 8 (scriptHashOf (createScriptBuffer zeroSecret)) ∧
    cashAddrEncodeSpec "bitcoincash" 8 (scriptHashOf (createScriptBuffer zeroSecret))
        = "bitcoincash:ppdv2yxh7z2w9lnl7rru76cg9v8kae649u98hfeked" := by
  decide

/-- Claim C3: the script hash used by vault creation is
RIPEMD-160(SHA-256(locking script)), it is always 20 bytes long, and the
address embeds exactly that hash of the built locking script. -/
theorem c3_script_hash_spec (script s : List Nat) :
    scriptHashOf script = ripemd160 (sha256 script) ∧
    (scriptHashOf script).length = 20 ∧
    (createQuantumVault s).address
      = "bitcoincash:type_p2sh_" ++ bytesToHex (scriptHashOf (createScriptBuffer s)) :=
  ⟨rfl, ripemd160_length _, rfl⟩

/-- Claim C4: the derivation pipeline from an injected secret to commitment,
locking script, script hash and address string is a pure function — two runs
on the same secret agree on the whole result and on each field. -/
theorem c4_pipeline_deterministic (s1 s2 : List Nat) (h : s1 = s2) :
    createQuantumVault s1 = createQuantumVault s2 ∧
    (createQuantumVault s1).address = (createQuantumVault s2).address ∧
    (createQuantumVault s1).secretHash = (createQuantumVault s2).secretHash ∧
    (createQuantumVault s1).lockingScript = (createQuantumVault s2).lockingScript := by
  subst h
  exact ⟨rfl, rfl, rfl, rfl⟩

/-- Claim C4, witness: the two runs at the all-zero 32-byte secret. -/
theorem c4_witness :
    createQuantumVault zeroSecret = createQuantumVault zeroSecret ∧
    (createQuantumVault zeroSecret).address = (createQuantumVault zeroSecret).address ∧
    (createQuantumVault zeroSecret).secretHash = (createQuantumVault zeroSecret).secretHash ∧
    (createQuantumVault zeroSecret).lockingScript = (createQuantumVault zeroSecret).lockingScript :=
  c4_pipeline_deterministic zeroSecret zeroSecret rfl

/-- Claim C5: the sweep handler rebuilds, from the hex-rendered secret that
creation returned, a locking script byte-for-byte identical to the one
creation built from the raw secret. -/
theorem c5_sweep_rebuilds_create_script (s : List Nat) (hb : ∀ b ∈ s, b < 256) :
    sweepScriptBuffer (bytesToHex s) = createScriptBuffer s ∧
    sweepScriptBuffer ((createQuantumVault s).secret) = createScriptBuffer s := by
  have h := hex_roundtrip s hb
  constructor
  · show hexToBytes "a820" ++ sha256 (hexToBytes (bytesToHex s)) ++ hexToBytes "87"
        = hexToBytes "a820" ++ sha256 s ++ hexToBytes "87"
    rw [h]
  · show hexToBytes "a820" ++ sha256 (hexToBytes (bytesToHex s)) ++ hexToBytes "87"
        = hexToBytes "a820" ++ sha256 s ++ hexToBytes "87"
    rw [h]

/-- Claim C5, witness: create/sweep script agreement at the all-zero secret. -/
theorem c5_witness :
    sweepScriptBuffer (bytesToHex zeroSecret) = createScriptBuffer zeroSecret ∧
    sweepScriptBuffer ((createQuantumVault zeroSecret).secret) = createScriptBuffer zeroSecret :=
  c5_sweep_rebuilds_create_script zeroSecret (by decide)

/-- Claim C6 (settled against the spec-modelled Merkle vault, whose
implementation is absent from the source): `generateProof i` fails with
`InvalidLeafIndex` outside [0,3]; on an unused leaf inside [0,3] it succeeds
while atomically setting the leaf's `used` flag, and a second call for the
same leaf fails with `LeafAlreadyUsed`. -/
theorem c6_generate_proof_one_time (v : MerkleVault) (i : Nat) (hw : v.wellFormed) :
    (4 ≤ i → v.generateProof i = Except.error VaultError.InvalidLeafIndex) ∧
    (i < 4 → (v.leaves.getD i default).used = true →
      v.generateProof i = Except.error VaultError.LeafAlreadyUsed) ∧
    (i < 4 → (v.leaves.getD i default).used = false →
      v.generateProof i
          = Except.ok (⟨i, (v.leaves.getD i default).secret, v.siblingPath i⟩, v.markUsed i) ∧
      ((v.markUsed i).leaves.getD i default).used = true ∧
      (v.markUsed i).generateProof i = Except.error VaultError.LeafAlreadyUsed) := by
  have hlen : v.leaves.length = 4 := hw
  refine ⟨fun h4 => ?_, fun hlt hu => ?_, fun hlt hu => ?_⟩
  · simp [MerkleVault.generateProof, h4]
  · simp only [MerkleVault.generateProof]
    rw [if_neg (Nat.not_le.mpr hlt), if_pos hu]
  · have hi : i < v.leaves.length := by omega
    have hset : (v.markUsed i).leaves.getD i default
        = { v.leaves.getD i default with used := true } := by
      simp [MerkleVault.markUsed, List.getD, List.getElem?_set_self hi]
    refine ⟨?_, by rw [hset], ?_⟩
    · simp only [MerkleVault.generateProof]
      rw [if_neg (Nat.not_le.mpr hlt), if_neg (by rw [hu]; exact Bool.false_ne_true)]
    · simp only [MerkleVault.generateProof]
      rw [if_neg (Nat.not_le.mpr hlt), if_pos (by rw [hset])]

/-- Claim C6, witness: on a concrete well-formed vault, index 4 is rejected
and a second proof request for leaf 0 fails with `LeafAlreadyUsed`. -/
theorem c6_witness :
    cvault.generateProof 4 = Except.error VaultError.InvalidLeafIndex ∧
    (cvault.markUsed 0).generateProof 0 = Except.error VaultError.LeafAlreadyUsed :=
  ⟨(c6_generate_proof_one_time cvault 4 (by decide)).1 (by decide),
   ((c6_generate_proof_one_time cvault 0 (by decide)).2.2 (by decide) (by decide)).2.2⟩

/-- Claim C7: when the injected ledger collaborator fails, the balance
handler answers `success = false` carrying exactly the collaborator's error
message, and it invoked the collaborator exactly once (no retry). -/
theorem c7_balance_failure_surfaced (lookupBalance : String → Except String Nat)
    (address msg : String)
    (hsim : jsIncludes address "type_p2sh" = false)
    (hfail : lookupBalance address = Except.error msg) :
    balanceHandler lookupBalance address
      = ({ success := false, balance := none, note := none, error := some msg }, 1) := by
  simp [balanceHandler, hsim, hfail]

/-- Claim C7, witness: the always-failing ledger at a non-simulated address. -/
theorem c7_witness :
    balanceHandler errLedger "bchtest"
      = ({ success := false, balance := none, note := none, error := some "boom" }, 1) :=
  c7_balance_failure_surfaced errLedger "bchtest" "boom" (by decide) rfl

/-- Claim C8: for an address containing `"type_p2sh"`, the balance handler
answers `success = true`, balance 0, note "Simulated Address", with zero
ledger invocations and independently of the injected ledger; for addresses
not containing it the ledger is invoked exactly once. -/
theorem c8_simulated_address_branch (lookupBalance : String → Except String Nat)
    (address : String) (hsim : jsIncludes address "type_p2sh" = true) :
    balanceHandler lookupBalance address
      = ({ success := true, balance := some 0, note := some "Simulated Address",
           error := none }, 0) ∧
    (∀ other : String → Except String Nat,
      balanceHandler other address = balanceHandler lookupBalance address) ∧
    (∀ addr2 : String, jsIncludes addr2 "type_p2sh" = false →
      (balanceHandler lookupBalance addr2).2 = 1) := by
  refine ⟨by simp [balanceHandler, hsim], fun other => by simp [balanceHandler, hsim],
    fun addr2 h2 => ?_⟩
  cases hx : lookupBalance addr2 <;> simp [balanceHandler, h2, hx]

/-- Claim C8, witness: a concrete simulated address with a concrete ledger. -/
theorem c8_witness :
    balanceHandler okLedger "bitcoincash:type_p2sh_00"
      = ({ success := true, balance := some 0, note := some "Simulated Address",
           error := none }, 0) :=
  (c8_simulated_address_branch okLedger "bitcoincash:type_p2sh_00" (by decide)).1

/-- Claim C9: the manual-variant sweep handler's outcome is independent of
the supplied secret — for any two hex-parsable secrets (and any destination
addresses) it returns the identical `success = true` response, with the
fixed message, the simulated txid built from the injected randomness, and
the debug claim "Secret hash matches."; no stored commitment is consulted. -/
theorem c9_sweep_outcome_independent_of_secret (rand8 : List Nat)
    (s1 s2 dest1 dest2 : String)
    (h1 : isHexString s1 = true) (h2 : isHexString s2 = true) :
    sweepHandlerManual rand8 s1 dest1 = sweepHandlerManual rand8 s2 dest2 ∧
    (sweepHandlerManual rand8 s1 dest1).success = true ∧
    (sweepHandlerManual rand8 s1 dest1).message = some "Vault Validated! (Broadcasting mocked)" ∧
    (sweepHandlerManual rand8 s1 dest1).debug = some "Secret hash matches." ∧
    (sweepHandlerManual rand8 s1 dest1).txid = some ("tx_simulated_" ++ bytesToHex rand8) :=
  ⟨rfl, rfl, rfl, rfl, rfl⟩

/-- Claim C9, witness: two different concrete secrets, same response. -/
theorem c9_witness :
    sweepHandlerManual (List.replicate 8 171) "00" "dest1"
        = sweepHandlerManual (List.replicate 8 171) "ff" "dest2" ∧
    (sweepHandlerManual (List.replicate 8 171) "00" "dest1").success = true ∧
    (sweepHandlerManual (List.replicate 8 171) "00" "dest1").message
        = some "Vault Validated! (Broadcasting mocked)" ∧
    (sweepHandlerManual (List.replicate 8 171) "00" "dest1").debug
        = some "Secret hash matches." ∧
    (sweepHandlerManual (List.replicate 8 171) "00" "dest1").txid
        = some ("tx_simulated_" ++ bytesToHex (List.replicate 8 171)) :=
  c9_sweep_outcome_independent_of_secret (List.replicate 8 171) "00" "ff" "dest1" "dest2"
    (by decide) (by decide)

/-- Claim C10: in the library variant, when the ledger reports a balance
below 1000 satoshis the sweep fails with "Insufficient funds in vault." and
reports no transaction; with a balance of at least 1000 it reaches the
success branch. -/
theorem c10_insufficient_funds_below_threshold (ledger : String → Except String Nat)
    (secret dest : String) (b : Nat)
    (hb : ledger (bytesToHex (sweepScriptBuffer secret)) = Except.ok b) :
    (b < 1000 → sweepHandlerLib ledger secret dest
        = { success := false, message := none, txid := none, debug := none,
            error := some "Insufficient funds in vault." }) ∧
    (1000 ≤ b → sweepHandlerLib ledger secret dest
        = { success := true, message := some "Transaction Constructed (Simulation)",
            txid := some "requires_full_node_implementation",
            debug := some "Secret verified against hash.", error := none }) := by
  constructor
  · intro hlt
    simp [sweepHandlerLib, hb, hlt]
  · intro hge
    simp [sweepHandlerLib, hb, Nat.not_lt.mpr hge]

/-- Claim C10, witness: the 500-satoshi ledger yields the failure response. -/
theorem c10_witness :
    sweepHandlerLib lowLedger "00" "dest"
      = { success := false, message := none, txid := none, debug := none,
          error := some "Insufficient funds in vault." } :=
  (c10_insufficient_funds_below_threshold lowLedger "00" "dest" 500 rfl).1 (by decide)

end BCHVault
